import Mathlib

/-!
Shallow embedding of the mdevctl device lifecycle manager and callout engine
(src/src/mdev.rs, src/src/callouts.rs), with theorems checking the
natural-language specification against the code.

Conventions of the embedding:
- UUIDs are abstracted to Nat; their hyphenated rendering is the decimal string.
- File-system and child-process effects are abstracted by explicit environment
  records (FsEnv, ScriptWorld, ...) whose fields correspond one-to-one to the
  i/o accesses the source performs; `Except.error` models a Rust `Err`.
- Functions taking `&mut self` in Rust return the updated value; an outcome
  type with a `panicked` constructor models an `unwrap()` on `None` aborting
  the process.
- Operations that mutate the kernel control tree also return the list of
  write attempts they made, in order (the write trace).
-/

set_option linter.unusedVariables false

namespace Mdevctl

/-- Model of serde_json::Value restricted to the constructors this program
touches. `obj` carries its fields as an association list; serde maps are
BTreeMaps with unique keys, and the lists this development builds are in
ascending key order. -/
inductive Json where
  | null : Json
  | num (n : Int) : Json
  | str (s : String) : Json
  | arr (elems : List Json) : Json
  | obj (fields : List (String × Json)) : Json
deriving BEq, Repr

/-- serde_json indexing `json["key"]`: on an object, the value bound to the
key (Null when missing); Null on any non-object, matching Value::index. -/
def Json.index (j : Json) (key : String) : Json :=
  match j with
  | .obj fields => (((fields.find? (fun f => f.1 == key)).map Prod.snd).getD Json.null)
  | _ => Json.null

/-- Value::is_null. -/
def Json.is_null : Json → Bool
  | .null => true
  | _ => false

/-- Value::as_str. -/
def Json.as_str : Json → Option String
  | .str s => some s
  | _ => Option.none

/-- Value::as_array. -/
def Json.as_array : Json → Option (List Json)
  | .arr xs => some xs
  | _ => Option.none

/-- Value::as_object. -/
def Json.as_object : Json → Option (List (String × Json))
  | .obj fs => some fs
  | _ => Option.none

/-- Representation of a mediated device, src/src/mdev.rs `MDev`. The `env`
collaborator is not stored; the operations that need it take an explicit
environment argument. -/
structure MDev where
  uuid : Nat
  active : Bool
  autostart : Bool
  parent : Option String
  mdev_type : Option String
  attrs : List (String × String)
deriving DecidableEq, Repr

/-- MDev::new. -/
def MDev.new (uuid : Nat) : MDev :=
  { uuid := uuid, active := false, autostart := false,
    parent := Option.none, mdev_type := Option.none, attrs := [] }

/-- MDev::parent(): the parent, or the consistent missing-parent error. -/
def MDev.parent_res (dev : MDev) : Except String String :=
  match dev.parent with
  | some p => .ok p
  | Option.none => .error ("Device " ++ toString dev.uuid ++ " is missing a parent")

/-- MDev::mdev_type(): the type, or the consistent missing-type error. -/
def MDev.mdev_type_res (dev : MDev) : Except String String :=
  match dev.mdev_type with
  | some t => .ok t
  | Option.none => .error ("Device " ++ toString dev.uuid ++ " is missing a mdev_type")

/-- MDev::to_json. serde_json::Map is a BTreeMap ordered by key, so the three
inserted fields are rendered in ascending key order: attrs, mdev_type, start. -/
def MDev.to_json (dev : MDev) (include_uuid : Bool) : Except String Json := do
  let t ← dev.mdev_type_res
  let auto := if dev.autostart then "auto" else "manual"
  let jsonattrs := dev.attrs.map (fun kv => Json.obj [(kv.1, Json.str kv.2)])
  let body := Json.obj
    [("attrs", Json.arr jsonattrs), ("mdev_type", Json.str t), ("start", Json.str auto)]
  pure (if include_uuid then Json.obj [(toString dev.uuid, body)] else body)

/-- Outcome of a Rust method on `&mut self` that can fail or panic. `ok` and
`err` carry the receiver after the call (mutations made before an early
`return Err` persist); `panicked` models an `unwrap()` on `None` aborting the
process. -/
inductive MutOutcome where
  | ok (dev : MDev)
  | err (msg : String) (dev : MDev)
  | panicked (msg : String)
deriving DecidableEq, Repr

/-- Inner loop of MDev::load_from_json over one attribute object: pushes each
key/value pair; `val.as_str().unwrap()` panics on a non-string value. -/
def MDev.push_attr_pairs (dev : MDev) : List (String × Json) → MutOutcome
  | [] => .ok dev
  | (k, v) :: rest =>
    match v.as_str with
    | Option.none => .panicked "called Option::unwrap() on a None value"
    | some s => MDev.push_attr_pairs { dev with attrs := dev.attrs ++ [(k, s)] } rest

/-- Loop of MDev::load_from_json over the attrs array: each entry must be an
object (`attr.as_object().unwrap()` panics otherwise). -/
def MDev.load_attrs (dev : MDev) : List Json → MutOutcome
  | [] => .ok dev
  | a :: rest =>
    match a.as_object with
    | Option.none => .panicked "called Option::unwrap() on a None value"
    | some kvs =>
      match MDev.push_attr_pairs dev kvs with
      | .ok d => MDev.load_attrs d rest
      | r => r

/-- MDev::load_from_json. The parent is assigned before the null validation of
mdev_type/start; `json["mdev_type"].as_str().unwrap()` panics when mdev_type
is present but not a string. The overwrite warnings are log-only and are not
modeled. -/
def MDev.load_from_json (dev : MDev) (parent : String) (json : Json) : MutOutcome :=
  let dev := { dev with parent := some parent }
  if (json.index "mdev_type").is_null || (json.index "start").is_null then
    .err "invalid json" dev
  else
    match (json.index "mdev_type").as_str with
    | Option.none => .panicked "called Option::unwrap() on a None value"
    | some t =>
      let dev := { dev with mdev_type := some t }
      let startval := (json.index "start").as_str
      let dev := { dev with autostart := match startval with
        | some "auto" => true
        | _ => false }
      match (json.index "attrs").as_array with
      | some attrarray =>
        if attrarray.isEmpty then .ok dev else MDev.load_attrs dev attrarray
      | Option.none => .ok dev

/-- MDev::add_attribute: Vec::insert at the index (bounds-checked first),
append when no index is given. -/
def MDev.add_attribute (dev : MDev) (name value : String) (index : Option Nat) : MutOutcome :=
  match index with
  | some i =>
    if i > dev.attrs.length then
      .err ("Attribute index " ++ toString i ++ " is invalid") dev
    else
      .ok { dev with attrs := dev.attrs.take i ++ (name, value) :: dev.attrs.drop i }
  | Option.none => .ok { dev with attrs := dev.attrs ++ [(name, value)] }

/-- MDev::delete_attribute: after the `i > len` bounds check, `Vec::remove(i)`
still panics when `i = len`; with no index, `Vec::pop()` on an empty vector
returns None and the result is discarded. -/
def MDev.delete_attribute (dev : MDev) (index : Option Nat) : MutOutcome :=
  match index with
  | some i =>
    if i > dev.attrs.length then
      .err ("Attribute index " ++ toString i ++ " is invalid") dev
    else if i = dev.attrs.length then
      .panicked "removal index out of bounds"
    else
      .ok { dev with attrs := dev.attrs.eraseIdx i }
  | Option.none => .ok { dev with attrs := dev.attrs.dropLast }

/-- Behavior of the kernel control tree and sysfs as consumed by MDev::create,
MDev::start and MDev::stop, for one fixed device uuid. Each field abstracts
one file-system access of the source; `Except.error` is an io error. Path
canonicalization inside load_from_sysfs is not modeled as failing: a live
entry always resolves to its parent and type basenames. -/
structure FsEnv where
  live : Option (String × String)
  parent_has_support : String → Bool
  type_supported : String → String → Bool
  avail_read : String → String → Except String Int
  create_write : Except String Unit
  remove_write : Except String Unit
  attr_exists : String → Bool
  attr_write : String → String → Except String Unit

/-- One attempted write to the kernel control tree. -/
inductive FsWrite where
  | create (uuid : Nat)
  | remove
  | attr (name value : String)
deriving DecidableEq, Repr

/-- MDev::load_from_sysfs: no-op when the device path does not exist; no match
(entity untouched) when an already-populated parent or type conflicts with the
live tree; otherwise adopt the live parent and type and mark active. -/
def MDev.load_from_sysfs (fs : FsEnv) (dev : MDev) : MDev :=
  match fs.live with
  | Option.none => dev
  | some pt =>
    if dev.parent.isSome && dev.parent != some pt.1 then dev
    else if dev.mdev_type.isSome && dev.mdev_type != some pt.2 then dev
    else { dev with mdev_type := some pt.2, parent := some pt.1, active := true }

/-- MDev::stop: write "1" to the remove control file; flip active off only on
success. -/
def MDev.stop (fs : FsEnv) (dev : MDev) : Except String Unit × MDev × List FsWrite :=
  match fs.remove_write with
  | .ok _ => (.ok (), { dev with active := false }, [FsWrite.remove])
  | .error e => (.error ("Error removing device: " ++ e), dev, [FsWrite.remove])

/-- MDev::create: re-probe the live tree via a fresh MDev and load_from_sysfs,
reject identity conflicts, validate parent support, type support and capacity,
and only then attempt the create write. -/
def MDev.create (fs : FsEnv) (dev : MDev) : Except String Unit × MDev × List FsWrite :=
  match dev.parent_res with
  | .error e => (.error e, dev, [])
  | .ok parent =>
    match dev.mdev_type_res with
    | .error e => (.error e, dev, [])
    | .ok mdevType =>
      let existing := MDev.load_from_sysfs fs (MDev.new dev.uuid)
      if existing.active then
        if existing.parent ≠ dev.parent then
          (.error "Device exists under different parent", dev, [])
        else if existing.mdev_type ≠ dev.mdev_type then
          (.error "Device exists with different type", dev, [])
        else
          (.error "Device already exists", dev, [])
      else if !(fs.parent_has_support parent) then
        (.error ("Parent " ++ parent ++ " is not currently registered for mdev support"),
          dev, [])
      else if !(fs.type_supported parent mdevType) then
        (.error ("Parent " ++ parent ++ " does not support mdev type " ++ mdevType), dev, [])
      else
        match fs.avail_read parent mdevType with
        | .error e => (.error e, dev, [])
        | .ok avail =>
          if avail = 0 then
            (.error ("No available instances of " ++ mdevType ++ " on " ++ parent), dev, [])
          else
            match fs.create_write with
            | .ok _ => (.ok (), { dev with active := true }, [FsWrite.create dev.uuid])
            | .error e =>
              (.error ("Failed to create mdev: " ++ e), dev, [FsWrite.create dev.uuid])

/-- write_attr (src/src/mdev.rs): existence check before the write; the write
is only attempted (and traced) when the attribute path exists. -/
def write_attr (fs : FsEnv) (attr val : String) : Except String Unit × List FsWrite :=
  if !(fs.attr_exists attr) then (.error ("Invalid attribute " ++ attr), [])
  else
    match fs.attr_write attr val with
    | .ok _ => (.ok (), [FsWrite.attr attr val])
    | .error e =>
      (.error ("Failed to write " ++ val ++ " to attribute " ++ attr ++ ": " ++ e),
        [FsWrite.attr attr val])

/-- Attribute-application loop of MDev::start: on the first write_attr failure
run stop(); `self.stop()?` propagates the error of a failed rollback in place of
the attribute error. -/
def MDev.start_attrs (fs : FsEnv) (dev : MDev) :
    List (String × String) → Except String Unit × MDev × List FsWrite
  | [] => (.ok (), dev, [])
  | kv :: rest =>
    match write_attr fs kv.1 kv.2 with
    | (.ok _, t) =>
      let r := MDev.start_attrs fs dev rest
      (r.1, r.2.1, t ++ r.2.2)
    | (.error e, t) =>
      let s := MDev.stop fs dev
      match s.1 with
      | .ok _ => (.error e, s.2.1, t ++ s.2.2)
      | .error se => (.error se, s.2.1, t ++ s.2.2)

/-- MDev::start: create, then write every attribute in attrs order. The
print_uuid flag only prints and does not affect state. -/
def MDev.start (fs : FsEnv) (dev : MDev) (print_uuid : Bool) :
    Except String Unit × MDev × List FsWrite :=
  match MDev.create fs dev with
  | (.error e, d1, t1) => (.error e, d1, t1)
  | (.ok _, d1, t1) =>
    let r := MDev.start_attrs fs d1 d1.attrs
    (r.1, r.2.1, t1 ++ r.2.2)

/-- Event type of src/src/callouts.rs. -/
inductive Event where
  | pre | post | notify
deriving DecidableEq, Repr

/-- Display impl for Event. -/
def Event.toStr : Event → String
  | .pre => "pre"
  | .post => "post"
  | .notify => "notify"

/-- Action type of src/src/callouts.rs. -/
inductive Action where
  | start | stop | define | undefine | modify
deriving DecidableEq, Repr

/-- Display impl for Action. -/
def Action.toStr : Action → String
  | .start => "start"
  | .stop => "stop"
  | .define => "define"
  | .undefine => "undefine"
  | .modify => "modify"

/-- State type of src/src/callouts.rs. -/
inductive State where
  | none | success | failure
deriving DecidableEq, Repr

/-- Display impl for State. -/
def State.toStr : State → String
  | .none => "none"
  | .success => "success"
  | .failure => "failure"

/-- Observable outcome of executing one script file: `ioErr` is any Err from
spawn, the stdin write, or wait; `signaled` is an exit with no code (killed by
a signal, `status.code() == None`); `exited` carries the exit code. -/
inductive ExecResult where
  | ioErr
  | signaled
  | exited (code : Int)
deriving DecidableEq, Repr

/-- Behavior of the script files on disk: what executing the file at a given
path with a given event, action and state does. Script files are keyed by
path, so a directory listing can change between stages while each path keeps
its behavior. -/
structure ScriptWorld where
  run : Nat → Event → Action → State → ExecResult

/-- Callout session of src/src/callouts.rs: outcome label, sticky selected
script path, and the syslog output-routing flag. -/
structure Callout where
  state : State
  script : Option Nat
  use_syslog : Bool
deriving DecidableEq, Repr

/-- Callout::new. -/
def Callout.new : Callout :=
  { state := State.none, script := Option.none, use_syslog := false }

/-- One recorded externally visible step of a wrapped invocation: a script
spawn attempt with its full argument vector, or the run of the wrapped
operation itself. -/
inductive TraceEv where
  | script (path : Nat) (event : Event) (args : List String)
  | op
deriving DecidableEq, Repr

/-- Argument vector built by Callout::invoke_script (the cmd.arg chain):
identical for every event, including notify. `dev.mdev_type()?` and
`dev.parent()?` propagate their errors before any spawn. -/
def Callout.script_args (c : Callout) (dev : MDev) (event : Event) (action : Action) :
    Except String (List String) := do
  let t ← dev.mdev_type_res
  let p ← dev.parent_res
  pure ["-t", t, "-e", event.toStr, "-a", action.toStr, "-s", c.state.toStr,
    "-u", toString dev.uuid, "-p", p]

/-- Callout::invoke_script: build the argument vector, spawn, feed the device
JSON on stdin, wait; the result is `Ok(output)` with `output.status.code()`
abstracted to an `Option Int`, or an Err. The trace records the spawn attempt
with its argv; an argv-building failure happens before any spawn. The
`dev.to_json(false)?` for stdin can only fail when mdev_type is missing,
which the argv build has already ruled out, so it is not modeled separately. -/
def Callout.invoke_script (w : ScriptWorld) (c : Callout) (dev : MDev) (path : Nat)
    (event : Event) (action : Action) : Except String (Option Int) × List TraceEv :=
  match Callout.script_args c dev event action with
  | .error e => (.error e, [])
  | .ok args =>
    match w.run path event action c.state with
    | ExecResult.ioErr => (.error "failed to execute script", [TraceEv.script path event args])
    | ExecResult.signaled => (.ok Option.none, [TraceEv.script path event args])
    | ExecResult.exited n => (.ok (some n), [TraceEv.script path event args])

/-- Loop of Callout::invoke_first_matching_script over the directory entries:
an Err result is logged and skipped; a death without exit code is logged and
skipped; exit code 2 declines and the scan continues (aborting with None if
`dev.mdev_type().ok()?` is absent, as in the debug line); any other exit code
selects the script and stops the scan. -/
def Callout.scan_scripts (w : ScriptWorld) (c : Callout) (dev : MDev)
    (event : Event) (action : Action) : List Nat → Option (Nat × Option Int) × List TraceEv
  | [] => (Option.none, [])
  | p :: rest =>
    let r := Callout.invoke_script w c dev p event action
    match r.1 with
    | .error _ =>
      let k := Callout.scan_scripts w c dev event action rest
      (k.1, r.2 ++ k.2)
    | .ok Option.none =>
      let k := Callout.scan_scripts w c dev event action rest
      (k.1, r.2 ++ k.2)
    | .ok (some n) =>
      if n ≠ 2 then (some (p, some n), r.2)
      else
        match dev.mdev_type with
        | Option.none => (Option.none, r.2)
        | some _ =>
          let k := Callout.scan_scripts w c dev event action rest
          (k.1, r.2 ++ k.2)

/-- Callout::invoke_first_matching_script: None without any invocation on an
empty directory, otherwise the scan loop. -/
def Callout.invoke_first_matching_script (w : ScriptWorld) (c : Callout) (dev : MDev)
    (dir : List Nat) (event : Event) (action : Action) :
    Option (Nat × Option Int) × List TraceEv :=
  if dir.length = 0 then (Option.none, [])
  else Callout.scan_scripts w c dev event action dir

/-- Return-code handling at the end of Callout::callout: `Some(0) | None` is
success, any other code is the hard failure carrying the selected script. -/
def Callout.rc_to_result (script_path : Nat) (rc : Option Int) : Except String Unit :=
  match rc with
  | some 0 => .ok ()
  | Option.none => .ok ()
  | some n =>
    .error ("callout script " ++ toString script_path ++ " failed with return code "
      ++ toString n)

/-- Callout::callout for the Pre/Post stages: no-op when the script directory
is not a dir; reuse the sticky selected script when present (an Err from the
reused invocation makes rc None, hence Ok); otherwise discover via
invoke_first_matching_script and remember the selection. The directory
listing is the one read at this call. -/
def Callout.callout (w : ScriptWorld) (c : Callout) (dev : MDev) (dir_is_dir : Bool)
    (dir : List Nat) (event : Event) (action : Action) :
    Except String Unit × Callout × List TraceEv :=
  if !dir_is_dir then (.ok (), c, [])
  else
    match c.script with
    | some s =>
      let r := Callout.invoke_script w c dev s event action
      match r.1 with
      | .ok rc => (Callout.rc_to_result s rc, c, r.2)
      | .error _ => (.ok (), c, r.2)
    | Option.none =>
      match Callout.invoke_first_matching_script w c dev dir event action with
      | (some sel, t) =>
        (Callout.rc_to_result sel.1 sel.2, { c with script := some sel.1 }, t)
      | (Option.none, t) => (.ok (), c, t)

/-- Callout::notify: invoke every script of the notification directory; each
outcome is only logged. Directory-entry io errors are not modeled, so the
stage result is Ok. -/
def Callout.notify (w : ScriptWorld) (c : Callout) (dev : MDev) (ndir_is_dir : Bool)
    (ndir : List Nat) (action : Action) : Except String Unit × List TraceEv :=
  if !ndir_is_dir then (.ok (), [])
  else
    (.ok (), (ndir.map (fun p => (Callout.invoke_script w c dev p Event.notify action).2)).flatten)

/-- Directories seen by one wrapped invocation: the action-script directory is
read once per stage, so Pre and Post each get the listing current at their own
read; the notification directory and the is_dir checks likewise. -/
structure CalloutEnv where
  world : ScriptWorld
  dir_is_dir : Bool
  pre_dir : List Nat
  post_dir : List Nat
  ndir_is_dir : Bool
  notify_dir : List Nat

/-- Result of Callout::invoke: the returned Result, the device after the
wrapped operation, the final callout session, and the full trace. -/
structure InvokeOut where
  res : Except String Unit
  dev : MDev
  session : Callout
  trace : List TraceEv
deriving Repr

/-- Callout::invoke: Pre, then (on Pre success) the wrapped operation, state
update and Post (Post errors only logged), and unconditionally Notify, whose
result is discarded; returns the Pre error or the own result of the operation. -/
def Callout.invoke (env : CalloutEnv) (dev : MDev) (use_syslog : Bool) (action : Action)
    (func : MDev → Except String Unit × MDev) : InvokeOut :=
  let c := { Callout.new with use_syslog := use_syslog }
  match Callout.callout env.world c dev env.dir_is_dir env.pre_dir Event.pre action with
  | (Except.error e, c1, t1) =>
    let n := Callout.notify env.world c1 dev env.ndir_is_dir env.notify_dir action
    { res := .error e, dev := dev, session := c1, trace := t1 ++ n.2 }
  | (Except.ok _, c1, t1) =>
    let fr := func dev
    let st := match fr.1 with
      | .ok _ => State.success
      | .error _ => State.failure
    let c2 := { c1 with state := st }
    let p := Callout.callout env.world c2 fr.2 env.dir_is_dir env.post_dir Event.post action
    let n := Callout.notify env.world p.2.1 fr.2 env.ndir_is_dir env.notify_dir action
    { res := fr.1, dev := fr.2, session := p.2.1,
      trace := t1 ++ TraceEv.op :: (p.2.2 ++ n.2) }

/-- Behavior of script files for the legacy callout engine kept at the bottom
of src/src/mdev.rs, whose events and actions are plain strings. -/
structure OldScriptWorld where
  run : Nat → String → String → String → ExecResult

/-- Legacy Callout struct of src/src/mdev.rs: owned device, state label as a
string, cached device JSON (an empty String in the source, modeled as the
cached value itself), and the selected script (`PathBuf::new()`, the empty
path, modeled as none). -/
structure OldCallout where
  mdev : MDev
  state : String
  conf : Option Json
  script : Option Nat

/-- OldCallout::new. -/
def OldCallout.new (mdev : MDev) : OldCallout :=
  { mdev := mdev, state := "none", conf := Option.none, script := Option.none }

/-- Argument vector built by the legacy Callout::invoke_script in
src/src/mdev.rs: the `-t <mdev_type>` pair is omitted exactly when the event
is "notify". `as_ref().unwrap()` on a missing parent or type panics, modeled
as none. -/
def OldCallout.script_args (c : OldCallout) (event action : String) : Option (List String) :=
  if event == "notify" then
    match c.mdev.parent with
    | some p =>
      some ["-e", event, "-a", action, "-s", c.state, "-u", toString c.mdev.uuid, "-p", p]
    | Option.none => Option.none
  else
    match c.mdev.mdev_type, c.mdev.parent with
    | some t, some p =>
      some ["-t", t, "-e", event, "-a", action, "-s", c.state,
        "-u", toString c.mdev.uuid, "-p", p]
    | _, _ => Option.none

/-- Outcome of the legacy invoke_script: a panic from an unwrap on a missing
field, an io Err, or the ExitStatus of the child with its optional code. -/
inductive OldInvokeRes where
  | panicked
  | err (msg : String)
  | status (code : Option Int)
deriving DecidableEq, Repr

/-- Legacy Callout::invoke_script of src/src/mdev.rs. -/
def OldCallout.invoke_script (w : OldScriptWorld) (c : OldCallout) (path : Nat)
    (event action : String) : OldInvokeRes :=
  match OldCallout.script_args c event action with
  | Option.none => .panicked
  | some _ =>
    match w.run path event action c.state with
    | ExecResult.ioErr => .err "failed to execute script"
    | ExecResult.signaled => .status Option.none
    | ExecResult.exited n => .status (some n)

/-- Outcome of the legacy discovery loop: a panic, a propagated io Err
(`res?` aborts the whole stage), or the loop exit with the selected script
and the last return code. -/
inductive OldScanRes where
  | panicked
  | err (msg : String)
  | done (sel : Option Nat) (rc : Option Int)
deriving DecidableEq, Repr

/-- Discovery loop of the legacy Callout::callout: any code other than Some(2)
(including None from a signal death) selects the script and breaks. -/
def OldCallout.scan (w : OldScriptWorld) (c : OldCallout) (event action : String) :
    List Nat → Option Int → OldScanRes
  | [], rc => .done Option.none rc
  | p :: rest, rc =>
    match OldCallout.invoke_script w c p event action with
    | OldInvokeRes.panicked => .panicked
    | OldInvokeRes.err e => .err e
    | OldInvokeRes.status code =>
      if code ≠ some 2 then .done (some p) code
      else OldCallout.scan w c event action rest code

/-- Outcome of the legacy Callout::callout, carrying the session after the
call. -/
inductive OldCalloutRes where
  | panicked
  | err (msg : String) (c : OldCallout)
  | ok (c : OldCallout)

/-- Final rc check of the legacy Callout::callout: only Some(0) is success;
any other rc, including None, aborts the command. -/
def OldCallout.rc_check (c : OldCallout) (rc : Option Int) : OldCalloutRes :=
  match rc with
  | some 0 => .ok c
  | _ =>
    .err ("aborting command due to results from callout script "
      ++ toString (c.script.getD 0)) c

/-- Legacy Callout::callout of src/src/mdev.rs: cache the device JSON (its
to_json error propagates), no-op on an empty directory, reuse a selected
script, else scan with rc starting at Some(0); io errors of the loop propagate
and the final rc decides the stage. -/
def OldCallout.callout (w : OldScriptWorld) (c : OldCallout) (dir : List Nat)
    (event action : String) : OldCalloutRes :=
  match (if c.conf.isNone then (c.mdev.to_json false).map some else .ok c.conf) with
  | .error e => .err e c
  | .ok conf =>
    let c := { c with conf := conf }
    if dir.length = 0 then .ok c
    else
      match c.script with
      | some s =>
        match OldCallout.invoke_script w c s event action with
        | .panicked => OldCalloutRes.panicked
        | .err e => .err e c
        | .status rc => OldCallout.rc_check c rc
      | Option.none =>
        match OldCallout.scan w c event action dir (some 0) with
        | .panicked => OldCalloutRes.panicked
        | .err e => .err e c
        | .done sel rc => OldCallout.rc_check { c with script := sel } rc

/-! Theorems about the attribute operations (claim C9). -/

/-- C9 counterexample: delete_attribute with no index on a device with an
empty attrs list returns Ok and leaves the device unchanged (Vec::pop of an
empty vector is a discarded None), it does not fail with an invalid-index
error as the claim states. -/
theorem delete_attribute_empty_counterexample :
    MDev.delete_attribute (MDev.new 4) Option.none = MutOutcome.ok (MDev.new 4) := rfl

/-- C9 (amended): add_attribute and delete_attribute with an index greater
than the attrs length fail with the invalid-index error and leave attrs
unchanged; delete_attribute with an in-range index succeeds and removes
exactly the element at that index; delete_attribute with no index on an empty
attrs list succeeds as a no-op instead of failing. -/
theorem attribute_index_bounds (dev : MDev) (name value : String) (i : Nat) :
    (i > dev.attrs.length →
      MDev.add_attribute dev name value (some i) =
        MutOutcome.err ("Attribute index " ++ toString i ++ " is invalid") dev ∧
      MDev.delete_attribute dev (some i) =
        MutOutcome.err ("Attribute index " ++ toString i ++ " is invalid") dev) ∧
    (i < dev.attrs.length →
      MDev.delete_attribute dev (some i) =
        MutOutcome.ok { dev with attrs := dev.attrs.take i ++ dev.attrs.drop (i + 1) }) ∧
    (dev.attrs = [] → MDev.delete_attribute dev Option.none = MutOutcome.ok dev) := by
  refine ⟨fun h => ⟨?_, ?_⟩, fun h => ?_, fun h => ?_⟩
  · simp [MDev.add_attribute, h]
  · simp [MDev.delete_attribute, h]
  · have h1 : ¬ i > dev.attrs.length := by omega
    have h2 : ¬ i = dev.attrs.length := by omega
    simp [MDev.delete_attribute, h1, h2, List.eraseIdx_eq_take_drop_succ]
  · cases dev with
    | mk uuid active autostart parent mdev_type attrs =>
      simp only at h
      subst h
      simp [MDev.delete_attribute]

/-- Witness for attribute_index_bounds at a one-element attrs list and at an
empty one. -/
theorem attribute_index_bounds_witness :
    MDev.delete_attribute
        { uuid := 7, active := false, autostart := false, parent := Option.none,
          mdev_type := Option.none, attrs := [("a", "b")] } (some 2) =
      MutOutcome.err "Attribute index 2 is invalid"
        { uuid := 7, active := false, autostart := false, parent := Option.none,
          mdev_type := Option.none, attrs := [("a", "b")] } ∧
    MDev.delete_attribute
        { uuid := 7, active := false, autostart := false, parent := Option.none,
          mdev_type := Option.none, attrs := [("a", "b")] } (some 0) =
      MutOutcome.ok
        { uuid := 7, active := false, autostart := false, parent := Option.none,
          mdev_type := Option.none, attrs := [] } ∧
    MDev.delete_attribute (MDev.new 3) Option.none = MutOutcome.ok (MDev.new 3) := by
  refine ⟨?_, ?_, (attribute_index_bounds (MDev.new 3) "n" "v" 0).2.2 rfl⟩
  · exact ((attribute_index_bounds _ "n" "v" 2).1 (by decide)).2
  · have h := (attribute_index_bounds
      { uuid := 7, active := false, autostart := false, parent := Option.none,
        mdev_type := Option.none, attrs := [("a", "b")] } "n" "v" 0).2.1 (by decide)
    simpa using h

/-! Theorems about load_from_json (claims C10, C8). -/

/-- Shared computation: when mdev_type or start is null in the JSON,
load_from_json returns the invalid-json error with only the parent field
overwritten. -/
theorem load_from_json_null_case (dev : MDev) (p : String) (j : Json)
    (h : (((j.index "mdev_type").is_null) || ((j.index "start").is_null)) = true) :
    MDev.load_from_json dev p j = MutOutcome.err "invalid json" { dev with parent := some p } := by
  unfold MDev.load_from_json
  simp [h]

/-- C10: when load_from_json fails its null validation of mdev_type/start,
the parent field of the device has already been overwritten with the parent argument,
while mdev_type, autostart and attrs are unchanged (the equality against the
single-field update pins every other field). -/
theorem load_from_json_failure_mutates_parent (dev : MDev) (p : String) (j : Json)
    (h : (j.index "mdev_type").is_null = true ∨ (j.index "start").is_null = true) :
    MDev.load_from_json dev p j = MutOutcome.err "invalid json" { dev with parent := some p } := by
  apply load_from_json_null_case
  rcases h with h | h <;> simp [h]

/-- Witness for load_from_json_failure_mutates_parent: a device with a
different prior parent, loaded from an empty JSON object. -/
theorem load_from_json_failure_mutates_parent_witness :
    MDev.load_from_json
        { uuid := 2, active := false, autostart := true, parent := some "old",
          mdev_type := some "t", attrs := [("k", "v")] } "pnew" (Json.obj []) =
      MutOutcome.err "invalid json"
        { uuid := 2, active := false, autostart := true, parent := some "pnew",
          mdev_type := some "t", attrs := [("k", "v")] } :=
  load_from_json_failure_mutates_parent
    { uuid := 2, active := false, autostart := true, parent := some "old",
      mdev_type := some "t", attrs := [("k", "v")] } "pnew" (Json.obj []) (Or.inl rfl)

/-- C8 counterexample: load_from_json panics (unwrap on None) when mdev_type
is present but not a string, instead of returning a validation error as the
claim states. -/
theorem load_from_json_panic_counterexample :
    MDev.load_from_json (MDev.new 0) "p"
        (Json.obj [("mdev_type", Json.num 5), ("start", Json.str "auto")]) =
      MutOutcome.panicked "called Option::unwrap() on a None value" := rfl

/-- C8 (amended): load_from_json fails with the invalid-json validation error
when mdev_type or start is null or missing, without panicking; but when both
are present and mdev_type is not a string, it panics via unwrap instead of
returning an error. -/
theorem load_from_json_validation_and_panic (dev : MDev) (p : String) (j : Json) :
    ((((j.index "mdev_type").is_null) || ((j.index "start").is_null)) = true →
      MDev.load_from_json dev p j =
        MutOutcome.err "invalid json" { dev with parent := some p }) ∧
    ((((j.index "mdev_type").is_null) || ((j.index "start").is_null)) = false →
      (j.index "mdev_type").as_str = Option.none →
      MDev.load_from_json dev p j =
        MutOutcome.panicked "called Option::unwrap() on a None value") := by
  constructor
  · exact load_from_json_null_case dev p j
  · intro h hs
    unfold MDev.load_from_json
    simp [h, hs]

/-- Witness for load_from_json_validation_and_panic: both branches at
concrete JSON values. -/
theorem load_from_json_validation_and_panic_witness :
    MDev.load_from_json (MDev.new 1) "p" (Json.obj [("start", Json.str "auto")]) =
      MutOutcome.err "invalid json" { MDev.new 1 with parent := some "p" } ∧
    MDev.load_from_json (MDev.new 1) "p"
        (Json.obj [("mdev_type", Json.num 5), ("start", Json.str "manual")]) =
      MutOutcome.panicked "called Option::unwrap() on a None value" := by
  constructor
  · exact (load_from_json_validation_and_panic (MDev.new 1) "p"
      (Json.obj [("start", Json.str "auto")])).1 rfl
  · exact (load_from_json_validation_and_panic (MDev.new 1) "p"
      (Json.obj [("mdev_type", Json.num 5), ("start", Json.str "manual")])).2 rfl rfl

/-! Theorems about the to_json / load_from_json round trip (claim C7). -/

/-- The empty-array fast path of load_from_json agrees with the attrs loop. -/
theorem load_attrs_if_empty (d : MDev) (l : List Json) :
    (if l.isEmpty then MutOutcome.ok d else MDev.load_attrs d l) = MDev.load_attrs d l := by
  cases l <;> simp [MDev.load_attrs]

/-- The attrs loop of load_from_json over the exact array shape produced by
to_json appends the original pairs in order. -/
theorem load_attrs_map (d : MDev) (xs : List (String × String)) :
    MDev.load_attrs d (xs.map (fun kv => Json.obj [(kv.1, Json.str kv.2)])) =
      MutOutcome.ok { d with attrs := d.attrs ++ xs } := by
  induction xs generalizing d with
  | nil =>
    cases d
    simp [MDev.load_attrs]
  | cons hd tl ih =>
    obtain ⟨k, v⟩ := hd
    have h1 : MDev.load_attrs d
        (Json.obj [(k, Json.str v)] :: tl.map (fun kv => Json.obj [(kv.1, Json.str kv.2)])) =
        MDev.load_attrs { d with attrs := d.attrs ++ [(k, v)] }
          (tl.map (fun kv => Json.obj [(kv.1, Json.str kv.2)])) := rfl
    rw [List.map_cons, h1, ih]
    simp

/-- C7: serializing a device with to_json(false) and loading the result with
load_from_json into a fresh device with the same uuid yields the same
mdev_type, the same autostart flag, and the same attrs sequence in order. -/
theorem to_json_load_from_json_roundtrip (dev : MDev) (p t : String) (j : Json)
    (ht : dev.mdev_type = some t) (hj : MDev.to_json dev false = Except.ok j) :
    MDev.load_from_json (MDev.new dev.uuid) p j =
      MutOutcome.ok { MDev.new dev.uuid with
        parent := some p,
        mdev_type := dev.mdev_type,
        autostart := dev.autostart,
        attrs := dev.attrs } := by
  have h0 : MDev.to_json dev false = Except.ok (Json.obj
      [("attrs", Json.arr (dev.attrs.map (fun kv => Json.obj [(kv.1, Json.str kv.2)]))),
       ("mdev_type", Json.str t),
       ("start", Json.str (if dev.autostart then "auto" else "manual"))]) := by
    unfold MDev.to_json MDev.mdev_type_res
    rw [ht]
    rfl
  rw [h0] at hj
  have hjeq : Json.obj
      [("attrs", Json.arr (dev.attrs.map (fun kv => Json.obj [(kv.1, Json.str kv.2)]))),
       ("mdev_type", Json.str t),
       ("start", Json.str (if dev.autostart then "auto" else "manual"))] = j :=
    Except.ok.inj hj
  subst hjeq
  have hload : ∀ s : String, MDev.load_from_json (MDev.new dev.uuid) p (Json.obj
      [("attrs", Json.arr (dev.attrs.map (fun kv => Json.obj [(kv.1, Json.str kv.2)]))),
       ("mdev_type", Json.str t), ("start", Json.str s)]) =
      (if (dev.attrs.map (fun kv => Json.obj [(kv.1, Json.str kv.2)])).isEmpty then
        MutOutcome.ok { MDev.new dev.uuid with
          parent := some p,
          mdev_type := some t,
          autostart := match some s with
            | some "auto" => true
            | _ => false }
      else MDev.load_attrs { MDev.new dev.uuid with
          parent := some p,
          mdev_type := some t,
          autostart := match some s with
            | some "auto" => true
            | _ => false }
        (dev.attrs.map (fun kv => Json.obj [(kv.1, Json.str kv.2)]))) :=
    fun s => rfl
  rw [hload, load_attrs_if_empty, load_attrs_map]
  cases hb : dev.autostart <;> simp [MDev.new, ht, hb]

/-- Witness for to_json_load_from_json_roundtrip: an autostart device with a
duplicate attribute name, serialized and re-loaded. -/
theorem to_json_load_from_json_roundtrip_witness :
    MDev.load_from_json (MDev.new 9) "pp"
        (Json.obj
          [("attrs", Json.arr [Json.obj [("x", Json.str "1")], Json.obj [("x", Json.str "2")]]),
           ("mdev_type", Json.str "tw"), ("start", Json.str "auto")]) =
      MutOutcome.ok
        { uuid := 9, active := false, autostart := true, parent := some "pp",
          mdev_type := some "tw", attrs := [("x", "1"), ("x", "2")] } := by
  have h := to_json_load_from_json_roundtrip
    { uuid := 9, active := false, autostart := true, parent := some "pp",
      mdev_type := some "tw", attrs := [("x", "1"), ("x", "2")] } "pp" "tw"
    (Json.obj
      [("attrs", Json.arr [Json.obj [("x", Json.str "1")], Json.obj [("x", Json.str "2")]]),
       ("mdev_type", Json.str "tw"), ("start", Json.str "auto")]) rfl rfl
  simpa using h

/-! Theorems about MDev::create and MDev::start (claims C3, C2). -/

/-- A successful write_attr is exactly the Ok result with the single traced
attribute write. -/
theorem write_attr_ok_shape (fs : FsEnv) (k v : String)
    (h : (write_attr fs k v).1 = Except.ok ()) :
    write_attr fs k v = (Except.ok (), [FsWrite.attr k v]) := by
  unfold write_attr at h ⊢
  split at h
  · simp at h
  · split at h <;> simp_all

/-- C3: when the identity of the device is already active in the live kernel tree,
create() fails before any control-tree write (empty write trace), the device
is unchanged, and the error distinguishes a matching identity ("Device
already exists") from a differing live parent or type. -/
theorem create_conflict_before_write (fs : FsEnv) (dev : MDev) (lp lt p t : String)
    (hl : fs.live = some (lp, lt)) (hp : dev.parent = some p) (ht : dev.mdev_type = some t) :
    MDev.create fs dev =
      ((if lp ≠ p then Except.error "Device exists under different parent"
        else if lt ≠ t then Except.error "Device exists with different type"
        else Except.error "Device already exists"), dev, []) := by
  unfold MDev.create MDev.load_from_sysfs MDev.new MDev.parent_res MDev.mdev_type_res
  rw [hp, ht, hl]
  by_cases h1 : lp = p
  · by_cases h2 : lt = t
    · simp [hp, ht, h1, h2]
    · simp [hp, ht, h1, h2]
  · simp [hp, h1]

/-- Witness for create_conflict_before_write: matching identity and differing
parent, on concrete environments. -/
theorem create_conflict_before_write_witness :
    MDev.create
        { live := some ("pl", "tl"), parent_has_support := fun _ => true,
          type_supported := fun _ _ => true, avail_read := fun _ _ => Except.ok 1,
          create_write := Except.ok (), remove_write := Except.ok (),
          attr_exists := fun _ => true, attr_write := fun _ _ => Except.ok () }
        { uuid := 5, active := false, autostart := false, parent := some "pl",
          mdev_type := some "tl", attrs := [] } =
      (Except.error "Device already exists",
        { uuid := 5, active := false, autostart := false, parent := some "pl",
          mdev_type := some "tl", attrs := [] }, []) ∧
    MDev.create
        { live := some ("pl", "tl"), parent_has_support := fun _ => true,
          type_supported := fun _ _ => true, avail_read := fun _ _ => Except.ok 1,
          create_write := Except.ok (), remove_write := Except.ok (),
          attr_exists := fun _ => true, attr_write := fun _ _ => Except.ok () }
        { uuid := 5, active := false, autostart := false, parent := some "other",
          mdev_type := some "tl", attrs := [] } =
      (Except.error "Device exists under different parent",
        { uuid := 5, active := false, autostart := false, parent := some "other",
          mdev_type := some "tl", attrs := [] }, []) := by
  constructor
  · have h := create_conflict_before_write
      { live := some ("pl", "tl"), parent_has_support := fun _ => true,
        type_supported := fun _ _ => true, avail_read := fun _ _ => Except.ok 1,
        create_write := Except.ok (), remove_write := Except.ok (),
        attr_exists := fun _ => true, attr_write := fun _ _ => Except.ok () }
      { uuid := 5, active := false, autostart := false, parent := some "pl",
        mdev_type := some "tl", attrs := [] } "pl" "tl" "pl" "tl" rfl rfl rfl
    simpa using h
  · have h := create_conflict_before_write
      { live := some ("pl", "tl"), parent_has_support := fun _ => true,
        type_supported := fun _ _ => true, avail_read := fun _ _ => Except.ok 1,
        create_write := Except.ok (), remove_write := Except.ok (),
        attr_exists := fun _ => true, attr_write := fun _ _ => Except.ok () }
      { uuid := 5, active := false, autostart := false, parent := some "other",
        mdev_type := some "tl", attrs := [] } "pl" "tl" "other" "tl" rfl rfl rfl
    simpa using h

/-- C2 counterexample: when the remove write of the rollback also fails, start()
returns the rollback error instead of the original attribute error and the
device stays active, contradicting the claim that the device always ends
inactive with the attribute error returned. -/
theorem start_rollback_error_counterexample :
    MDev.start
        { live := Option.none, parent_has_support := fun _ => true,
          type_supported := fun _ _ => true, avail_read := fun _ _ => Except.ok 1,
          create_write := Except.ok (), remove_write := Except.error "remove failed",
          attr_exists := fun _ => true, attr_write := fun _ _ => Except.error "boom" }
        { uuid := 1, active := false, autostart := false, parent := some "p",
          mdev_type := some "t", attrs := [("a", "1")] } false =
      (Except.error "Error removing device: remove failed",
        { uuid := 1, active := true, autostart := false, parent := some "p",
          mdev_type := some "t", attrs := [("a", "1")] },
        [FsWrite.create 1, FsWrite.attr "a" "1", FsWrite.remove]) := rfl

/-- Attribute loop of start at the first failing write: earlier writes happen
in order, the failing write is followed by stop(), and the reported error is
the attribute error exactly when the remove write of the rollback succeeds. -/
theorem start_attrs_first_fail (fs : FsEnv) (d1 : MDev)
    (kpre : List (String × String)) (ka va : String) (kpost : List (String × String))
    (e : String)
    (hok : ∀ kv ∈ kpre, (write_attr fs kv.1 kv.2).1 = Except.ok ())
    (hfail : (write_attr fs ka va).1 = Except.error e) :
    MDev.start_attrs fs d1 (kpre ++ (ka, va) :: kpost) =
      ((match (MDev.stop fs d1).1 with
        | Except.ok _ => Except.error e
        | Except.error se => Except.error se),
       (MDev.stop fs d1).2.1,
       kpre.map (fun kv => FsWrite.attr kv.1 kv.2)
         ++ ((write_attr fs ka va).2 ++ (MDev.stop fs d1).2.2)) := by
  induction kpre with
  | nil =>
    have hw : write_attr fs ka va = (Except.error e, (write_attr fs ka va).2) := by
      rw [← hfail]
    simp only [List.nil_append, List.map_nil]
    unfold MDev.start_attrs
    rw [hw]
    cases hs : (MDev.stop fs d1).1 <;> simp [hs]
  | cons hd tl ih =>
    have hhd : (write_attr fs hd.1 hd.2).1 = Except.ok () :=
      hok hd (List.mem_cons_self hd tl)
    have hw : write_attr fs hd.1 hd.2 = (Except.ok (), [FsWrite.attr hd.1 hd.2]) :=
      write_attr_ok_shape fs hd.1 hd.2 hhd
    have ih2 := ih (fun kv hkv => hok kv (List.mem_cons_of_mem hd hkv))
    simp only [List.cons_append]
    unfold MDev.start_attrs
    rw [hw]
    simp only [ih2, List.map_cons]
    simp

/-- C2 (amended): if the k-th attribute write fails during start(), the
preceding attributes were applied in attrs order, stop() is invoked; when the
remove write of the rollback succeeds the device ends inactive and the original
attribute error is returned, but when the remove write itself fails, start()
returns the rollback error and the device stays in the state create() left it
(active). -/
theorem start_attr_failure_rollback (fs : FsEnv) (dev d1 : MDev) (t1 : List FsWrite)
    (b : Bool) (kpre : List (String × String)) (ka va : String)
    (kpost : List (String × String)) (e : String)
    (hcreate : MDev.create fs dev = (Except.ok (), d1, t1))
    (hattrs : d1.attrs = kpre ++ (ka, va) :: kpost)
    (hok : ∀ kv ∈ kpre, (write_attr fs kv.1 kv.2).1 = Except.ok ())
    (hfail : (write_attr fs ka va).1 = Except.error e) :
    (fs.remove_write = Except.ok () →
      MDev.start fs dev b =
        (Except.error e, { d1 with active := false },
          t1 ++ (kpre.map (fun kv => FsWrite.attr kv.1 kv.2)
            ++ ((write_attr fs ka va).2 ++ [FsWrite.remove])))) ∧
    (∀ se, fs.remove_write = Except.error se →
      MDev.start fs dev b =
        (Except.error ("Error removing device: " ++ se), d1,
          t1 ++ (kpre.map (fun kv => FsWrite.attr kv.1 kv.2)
            ++ ((write_attr fs ka va).2 ++ [FsWrite.remove])))) := by
  have key := start_attrs_first_fail fs d1 kpre ka va kpost e hok hfail
  constructor
  · intro hrm
    unfold MDev.start
    rw [hcreate]
    simp only [← hattrs] at key
    simp only [key, MDev.stop, hrm]
  · intro se hrm
    unfold MDev.start
    rw [hcreate]
    simp only [← hattrs] at key
    simp only [key, MDev.stop, hrm]

/-- Witness for start_attr_failure_rollback: a two-attribute device whose
second write fails, with a successful rollback. -/
theorem start_attr_failure_rollback_witness :
    MDev.start
        { live := Option.none, parent_has_support := fun _ => true,
          type_supported := fun _ _ => true, avail_read := fun _ _ => Except.ok 1,
          create_write := Except.ok (), remove_write := Except.ok (),
          attr_exists := fun _ => true,
          attr_write := fun k _ => if k = "bad" then Except.error "io" else Except.ok () }
        { uuid := 2, active := false, autostart := false, parent := some "p",
          mdev_type := some "t", attrs := [("good", "1"), ("bad", "2")] } false =
      (Except.error "Failed to write 2 to attribute bad: io",
        { uuid := 2, active := false, autostart := false, parent := some "p",
          mdev_type := some "t", attrs := [("good", "1"), ("bad", "2")] },
        [FsWrite.create 2, FsWrite.attr "good" "1", FsWrite.attr "bad" "2",
          FsWrite.remove]) := by
  have h := (start_attr_failure_rollback
    { live := Option.none, parent_has_support := fun _ => true,
      type_supported := fun _ _ => true, avail_read := fun _ _ => Except.ok 1,
      create_write := Except.ok (), remove_write := Except.ok (),
      attr_exists := fun _ => true,
      attr_write := fun k _ => if k = "bad" then Except.error "io" else Except.ok () }
    { uuid := 2, active := false, autostart := false, parent := some "p",
      mdev_type := some "t", attrs := [("good", "1"), ("bad", "2")] }
    { uuid := 2, active := true, autostart := false, parent := some "p",
      mdev_type := some "t", attrs := [("good", "1"), ("bad", "2")] }
    [FsWrite.create 2] false [("good", "1")] "bad" "2" []
    "Failed to write 2 to attribute bad: io" rfl rfl
    (by intro kv hkv; simp at hkv; subst hkv; rfl) rfl).1 rfl
  simpa using h

/-! Theorems about the callout engine of src/src/callouts.rs (claims C1, C4,
C5, C6). -/

/-- Callout::callout never changes the state label of the session. -/
theorem callout_state_eq (w : ScriptWorld) (c : Callout) (dev : MDev) (b : Bool)
    (dir : List Nat) (event : Event) (action : Action) :
    ((Callout.callout w c dev b dir event action).2.1).state = c.state := by
  unfold Callout.callout
  split
  · rfl
  · split
    · try dsimp only
      split <;> rfl
    · try dsimp only
      split <;> rfl

/-- The trace of one invoke_script contains no operation marker. -/
theorem invoke_script_trace_no_op (w : ScriptWorld) (c : Callout) (dev : MDev) (p : Nat)
    (event : Event) (action : Action) :
    TraceEv.op ∉ (Callout.invoke_script w c dev p event action).2 := by
  unfold Callout.invoke_script
  split
  · simp
  · split <;> simp

/-- The trace of the discovery scan contains no operation marker. -/
theorem scan_scripts_trace_no_op (w : ScriptWorld) (c : Callout) (dev : MDev)
    (event : Event) (action : Action) (dir : List Nat) :
    TraceEv.op ∉ (Callout.scan_scripts w c dev event action dir).2 := by
  induction dir with
  | nil => simp [Callout.scan_scripts]
  | cons p rest ih =>
    have h := invoke_script_trace_no_op w c dev p event action
    simp only [Callout.scan_scripts]
    cases hr : (Callout.invoke_script w c dev p event action).1 with
    | error e =>
      try dsimp only
      simp_all [List.mem_append]
    | ok oc =>
      cases oc with
      | none =>
        try dsimp only
        simp_all [List.mem_append]
      | some n =>
        try dsimp only
        by_cases hn : n ≠ 2
        · rw [if_pos hn]
          try dsimp only
          simp_all
        · rw [if_neg hn]
          cases hmt : dev.mdev_type with
          | none =>
            try dsimp only
            simp_all
          | some tt =>
            try dsimp only
            simp_all [List.mem_append]

/-- The trace of invoke_first_matching_script contains no operation marker. -/
theorem ifms_trace_no_op (w : ScriptWorld) (c : Callout) (dev : MDev) (dir : List Nat)
    (event : Event) (action : Action) :
    TraceEv.op ∉ (Callout.invoke_first_matching_script w c dev dir event action).2 := by
  unfold Callout.invoke_first_matching_script
  split
  · simp
  · exact scan_scripts_trace_no_op w c dev event action dir

/-- The trace of one Pre/Post callout stage contains no operation marker. -/
theorem callout_trace_no_op (w : ScriptWorld) (c : Callout) (dev : MDev) (b : Bool)
    (dir : List Nat) (event : Event) (action : Action) :
    TraceEv.op ∉ (Callout.callout w c dev b dir event action).2.2 := by
  unfold Callout.callout
  split
  · simp
  · split
    · try dsimp only
      split <;> exact invoke_script_trace_no_op w c dev _ event action
    · try dsimp only
      split <;>
        · rename_i heq
          have h := ifms_trace_no_op w c dev dir event action
          rw [heq] at h
          simpa using h

/-- The trace of the notification stage contains no operation marker. -/
theorem notify_trace_no_op (w : ScriptWorld) (c : Callout) (dev : MDev) (b : Bool)
    (ndir : List Nat) (action : Action) :
    TraceEv.op ∉ (Callout.notify w c dev b ndir action).2 := by
  unfold Callout.notify
  split
  · simp
  · intro hmem
    simp only [List.mem_flatten, List.mem_map] at hmem
    obtain ⟨l, ⟨q, hq, rfl⟩, hop⟩ := hmem
    exact invoke_script_trace_no_op w c dev q Event.notify action hop

/-- C1: when the Pre callout returns a hard failure, invoke() never runs the
wrapped operation, the session state stays None, the Notify stage still runs
exactly once afterward (the whole trace is the Pre trace followed by the
single Notify-stage trace, with no operation marker), and invoke returns the
Pre error; when Pre succeeds, invoke returns the own result of the operation (and
its device), regardless of the Post outcome. -/
theorem invoke_pre_failure_gates_operation (env : CalloutEnv) (dev : MDev) (us : Bool)
    (action : Action) (func : MDev → Except String Unit × MDev)
    (r : Except String Unit) (c1 : Callout) (t1 : List TraceEv)
    (hpre : Callout.callout env.world
      { state := State.none, script := Option.none, use_syslog := us } dev
      env.dir_is_dir env.pre_dir Event.pre action = (r, c1, t1)) :
    (∀ e, r = Except.error e →
      Callout.invoke env dev us action func =
        { res := Except.error e, dev := dev, session := c1,
          trace := t1 ++
            (Callout.notify env.world c1 dev env.ndir_is_dir env.notify_dir action).2 } ∧
      c1.state = State.none ∧
      TraceEv.op ∉ (Callout.invoke env dev us action func).trace) ∧
    (∀ u, r = Except.ok u →
      (Callout.invoke env dev us action func).res = (func dev).1 ∧
      (Callout.invoke env dev us action func).dev = (func dev).2) := by
  constructor
  · rintro e rfl
    have hinv : Callout.invoke env dev us action func =
        { res := Except.error e, dev := dev, session := c1,
          trace := t1 ++
            (Callout.notify env.world c1 dev env.ndir_is_dir env.notify_dir action).2 } := by
      simp only [Callout.invoke, Callout.new]
      rw [hpre]
    refine ⟨hinv, ?_, ?_⟩
    · have hs := callout_state_eq env.world
        { state := State.none, script := Option.none, use_syslog := us } dev
        env.dir_is_dir env.pre_dir Event.pre action
      rw [hpre] at hs
      exact hs
    · rw [hinv]
      simp only [List.mem_append]
      rintro (hm | hm)
      · have h := callout_trace_no_op env.world
          { state := State.none, script := Option.none, use_syslog := us } dev
          env.dir_is_dir env.pre_dir Event.pre action
        rw [hpre] at h
        exact h hm
      · exact notify_trace_no_op env.world c1 dev env.ndir_is_dir env.notify_dir action hm
  · rintro u rfl
    constructor <;>
      · simp only [Callout.invoke, Callout.new]
        rw [hpre]

/-- Witness for invoke_pre_failure_gates_operation: a single script exiting 1
makes Pre fail; the operation marker never appears and the Pre error is
returned. -/
theorem invoke_pre_failure_gates_operation_witness :
    (Callout.invoke
        { world := { run := fun _ _ _ _ => ExecResult.exited 1 }, dir_is_dir := true,
          pre_dir := [3], post_dir := [3], ndir_is_dir := true, notify_dir := [8] }
        { uuid := 9, active := false, autostart := false, parent := some "p0",
          mdev_type := some "t0", attrs := [] } false Action.start
        (fun d => (Except.ok (), d))).res =
      Except.error "callout script 3 failed with return code 1" ∧
    TraceEv.op ∉ (Callout.invoke
        { world := { run := fun _ _ _ _ => ExecResult.exited 1 }, dir_is_dir := true,
          pre_dir := [3], post_dir := [3], ndir_is_dir := true, notify_dir := [8] }
        { uuid := 9, active := false, autostart := false, parent := some "p0",
          mdev_type := some "t0", attrs := [] } false Action.start
        (fun d => (Except.ok (), d))).trace := by
  have h := (invoke_pre_failure_gates_operation
    { world := { run := fun _ _ _ _ => ExecResult.exited 1 }, dir_is_dir := true,
      pre_dir := [3], post_dir := [3], ndir_is_dir := true, notify_dir := [8] }
    { uuid := 9, active := false, autostart := false, parent := some "p0",
      mdev_type := some "t0", attrs := [] } false Action.start
    (fun d => (Except.ok (), d))
    (Except.error "callout script 3 failed with return code 1")
    { state := State.none, script := some 3, use_syslog := false }
    [TraceEv.script 3 Event.pre
      ["-t", "t0", "-e", "pre", "-a", "start", "-s", "none", "-u", "9", "-p", "p0"]]
    rfl).1 "callout script 3 failed with return code 1" rfl
  exact ⟨by rw [h.1], h.2.2⟩

/-- C4: once the Pre stage has selected a script, the Post stage of the same
session is independent of the directory listing (no re-scan) and its trace is
exactly one direct invocation of the selected script. -/
theorem post_reuses_selected_script (w : ScriptWorld) (c0 c1 : Callout) (dev dev2 : MDev)
    (dpre dpost dpost2 : List Nat) (action : Action) (r : Except String Unit)
    (t1 : List TraceEv) (s : Nat) (t p : String)
    (hc0 : c0.script = Option.none)
    (hpre : Callout.callout w c0 dev true dpre Event.pre action = (r, c1, t1))
    (hsel : c1.script = some s)
    (ht : dev2.mdev_type = some t) (hp : dev2.parent = some p) :
    Callout.callout w c1 dev2 true dpost Event.post action =
      Callout.callout w c1 dev2 true dpost2 Event.post action ∧
    (Callout.callout w c1 dev2 true dpost Event.post action).2.2 =
      [TraceEv.script s Event.post
        ["-t", t, "-e", "post", "-a", action.toStr, "-s", c1.state.toStr,
          "-u", toString dev2.uuid, "-p", p]] := by
  have hargs : Callout.script_args c1 dev2 Event.post action =
      Except.ok ["-t", t, "-e", "post", "-a", action.toStr, "-s", c1.state.toStr,
        "-u", toString dev2.uuid, "-p", p] := by
    unfold Callout.script_args MDev.mdev_type_res MDev.parent_res
    rw [ht, hp]
    rfl
  constructor
  · unfold Callout.callout
    rw [hsel]
  · unfold Callout.callout
    rw [hsel]
    unfold Callout.invoke_script
    rw [hargs]
    cases hr : w.run s Event.post action c1.state <;> simp [hr]

/-- Witness for post_reuses_selected_script: script 0 declines with exit 2,
script 1 claims with exit 0 and is selected during Pre; Post invokes script 1
directly even though the directory listing has changed. -/
theorem post_reuses_selected_script_witness :
    Callout.callout
        { run := fun q _ _ _ => if q = 0 then ExecResult.exited 2 else ExecResult.exited 0 }
        { state := State.none, script := some 1, use_syslog := false }
        { uuid := 9, active := false, autostart := false, parent := some "p0",
          mdev_type := some "t0", attrs := [] } true [0, 1, 2] Event.post Action.start =
      Callout.callout
        { run := fun q _ _ _ => if q = 0 then ExecResult.exited 2 else ExecResult.exited 0 }
        { state := State.none, script := some 1, use_syslog := false }
        { uuid := 9, active := false, autostart := false, parent := some "p0",
          mdev_type := some "t0", attrs := [] } true [5] Event.post Action.start ∧
    (Callout.callout
        { run := fun q _ _ _ => if q = 0 then ExecResult.exited 2 else ExecResult.exited 0 }
        { state := State.none, script := some 1, use_syslog := false }
        { uuid := 9, active := false, autostart := false, parent := some "p0",
          mdev_type := some "t0", attrs := [] } true [0, 1, 2] Event.post Action.start).2.2 =
      [TraceEv.script 1 Event.post
        ["-t", "t0", "-e", "post", "-a", "start", "-s", "none", "-u", "9", "-p", "p0"]] := by
  have h := post_reuses_selected_script
    { run := fun q _ _ _ => if q = 0 then ExecResult.exited 2 else ExecResult.exited 0 }
    Callout.new { state := State.none, script := some 1, use_syslog := false }
    { uuid := 9, active := false, autostart := false, parent := some "p0",
      mdev_type := some "t0", attrs := [] }
    { uuid := 9, active := false, autostart := false, parent := some "p0",
      mdev_type := some "t0", attrs := [] }
    [0, 1] [0, 1, 2] [5] Action.start (Except.ok ())
    [TraceEv.script 0 Event.pre
      ["-t", "t0", "-e", "pre", "-a", "start", "-s", "none", "-u", "9", "-p", "p0"],
     TraceEv.script 1 Event.pre
      ["-t", "t0", "-e", "pre", "-a", "start", "-s", "none", "-u", "9", "-p", "p0"]]
    1 "t0" "p0" rfl rfl rfl rfl rfl
  exact h

/-- C5 counterexample: during discovery in src/src/callouts.rs, a script that
dies without an exit code (path 0, signaled) is skipped and the scan continues
to the next script (path 1, which declines with exit 2); the stage then
returns Ok — not the hard error the claim requires. -/
theorem signaled_script_skipped_counterexample :
    Callout.callout { run := fun q _ _ _ => if q = 0 then ExecResult.signaled
        else ExecResult.exited 2 }
      { state := State.none, script := Option.none, use_syslog := false }
      { uuid := 9, active := false, autostart := false, parent := some "p0",
        mdev_type := some "t0", attrs := [] } true [0, 1] Event.pre Action.start =
      (Except.ok (),
        { state := State.none, script := Option.none, use_syslog := false },
        [TraceEv.script 0 Event.pre
          ["-t", "t0", "-e", "pre", "-a", "start", "-s", "none", "-u", "9", "-p", "p0"],
         TraceEv.script 1 Event.pre
          ["-t", "t0", "-e", "pre", "-a", "start", "-s", "none", "-u", "9", "-p", "p0"]]) :=
  rfl

/-- C5 (amended): in the active engine (src/src/callouts.rs) a script that
dies without an exit code is not selected as matched and is not treated as
success: discovery logs a warning, skips it, and continues with the next
script, the outcome of the pass being decided by the remaining scripts; the legacy
engine (bottom of src/src/mdev.rs) instead stops the scan at such a script
and turns the stage into a hard error. -/
theorem signaled_script_discovery (w : ScriptWorld) (c : Callout) (dev : MDev)
    (event : Event) (action : Action) (p : Nat) (rest : List Nat)
    (hsig : (Callout.invoke_script w c dev p event action).1 = Except.ok Option.none)
    (ow : OldScriptWorld) (oc : OldCallout) (q : Nat) (ev ac pp tt : String) (cj : Json)
    (hp : oc.mdev.parent = some pp) (ht : oc.mdev.mdev_type = some tt)
    (hcj : oc.conf = some cj) (hsc : oc.script = Option.none)
    (hq : ow.run q ev ac oc.state = ExecResult.signaled) :
    (Callout.scan_scripts w c dev event action (p :: rest)).1 =
      (Callout.scan_scripts w c dev event action rest).1 ∧
    (Callout.scan_scripts w c dev event action (p :: rest)).2 =
      (Callout.invoke_script w c dev p event action).2 ++
        (Callout.scan_scripts w c dev event action rest).2 ∧
    OldCallout.callout ow oc [q] ev ac =
      OldCalloutRes.err
        ("aborting command due to results from callout script " ++ toString q)
        { oc with script := some q } := by
  refine ⟨?_, ?_, ?_⟩
  · simp only [Callout.scan_scripts]
    rw [hsig]
  · simp only [Callout.scan_scripts]
    rw [hsig]
  · cases hbe : (ev == "notify") <;>
      simp [OldCallout.callout, OldCallout.scan, OldCallout.invoke_script,
        OldCallout.script_args, OldCallout.rc_check, hcj, hsc, hq, hp, ht, hbe]

/-- Witness for signaled_script_discovery: a signaled script at path 0 with a
declining script at path 1 for the active engine, and a signaled script at
path 7 for the legacy engine. -/
theorem signaled_script_discovery_witness :
    (Callout.scan_scripts
        { run := fun q _ _ _ => if q = 0 then ExecResult.signaled
            else ExecResult.exited 2 }
        { state := State.none, script := Option.none, use_syslog := false }
        { uuid := 9, active := false, autostart := false, parent := some "p0",
          mdev_type := some "t0", attrs := [] } Event.pre Action.start [0, 1]).1 =
      (Callout.scan_scripts
        { run := fun q _ _ _ => if q = 0 then ExecResult.signaled
            else ExecResult.exited 2 }
        { state := State.none, script := Option.none, use_syslog := false }
        { uuid := 9, active := false, autostart := false, parent := some "p0",
          mdev_type := some "t0", attrs := [] } Event.pre Action.start [1]).1 ∧
    (Callout.scan_scripts
        { run := fun q _ _ _ => if q = 0 then ExecResult.signaled
            else ExecResult.exited 2 }
        { state := State.none, script := Option.none, use_syslog := false }
        { uuid := 9, active := false, autostart := false, parent := some "p0",
          mdev_type := some "t0", attrs := [] } Event.pre Action.start [0, 1]).2 =
      (Callout.invoke_script
        { run := fun q _ _ _ => if q = 0 then ExecResult.signaled
            else ExecResult.exited 2 }
        { state := State.none, script := Option.none, use_syslog := false }
        { uuid := 9, active := false, autostart := false, parent := some "p0",
          mdev_type := some "t0", attrs := [] } 0 Event.pre Action.start).2 ++
        (Callout.scan_scripts
          { run := fun q _ _ _ => if q = 0 then ExecResult.signaled
              else ExecResult.exited 2 }
          { state := State.none, script := Option.none, use_syslog := false }
          { uuid := 9, active := false, autostart := false, parent := some "p0",
            mdev_type := some "t0", attrs := [] } Event.pre Action.start [1]).2 ∧
    OldCallout.callout { run := fun _ _ _ _ => ExecResult.signaled }
        { mdev :=
            { uuid := 6, active := false, autostart := false, parent := some "po",
              mdev_type := some "to", attrs := [] },
          state := "none", conf := some (Json.obj []), script := Option.none }
        [7] "pre" "start" =
      OldCalloutRes.err "aborting command due to results from callout script 7"
        { mdev :=
            { uuid := 6, active := false, autostart := false, parent := some "po",
              mdev_type := some "to", attrs := [] },
          state := "none", conf := some (Json.obj []), script := some 7 } :=
  signaled_script_discovery
    { run := fun q _ _ _ => if q = 0 then ExecResult.signaled else ExecResult.exited 2 }
    { state := State.none, script := Option.none, use_syslog := false }
    { uuid := 9, active := false, autostart := false, parent := some "p0",
      mdev_type := some "t0", attrs := [] } Event.pre Action.start 0 [1] rfl
    { run := fun _ _ _ _ => ExecResult.signaled }
    { mdev :=
        { uuid := 6, active := false, autostart := false, parent := some "po",
          mdev_type := some "to", attrs := [] },
      state := "none", conf := some (Json.obj []), script := Option.none }
    7 "pre" "start" "po" "to" (Json.obj []) rfl rfl rfl rfl rfl

/-- C6 counterexample: in src/src/callouts.rs a Notify-event script invocation
does receive the -t flag with the device type, contradicting the claim that
the Notify event omits -t. -/
theorem notify_invocation_passes_type_flag :
    Callout.notify { run := fun _ _ _ _ => ExecResult.exited 0 }
        { state := State.success, script := Option.none, use_syslog := false }
        { uuid := 9, active := false, autostart := false, parent := some "p0",
          mdev_type := some "t0", attrs := [] } true [7] Action.stop =
      (Except.ok (),
        [TraceEv.script 7 Event.notify
          ["-t", "t0", "-e", "notify", "-a", "stop", "-s", "success", "-u", "9",
            "-p", "p0"]]) := rfl

/-- C6 (amended): invoke_script of the active engine builds the same argument
vector for every event — -t, -e, -a, -s, -u, -p — including Notify; only the
legacy invoke_script at the bottom of src/src/mdev.rs omits -t, and it does so
exactly for the "notify" event while still passing it for every other
event. -/
theorem script_args_by_event (c : Callout) (dev : MDev) (event : Event) (action : Action)
    (t p : String) (ht : dev.mdev_type = some t) (hp : dev.parent = some p)
    (oc : OldCallout) (ot op2 ev ac : String)
    (hot : oc.mdev.mdev_type = some ot) (hop : oc.mdev.parent = some op2)
    (hev : ev ≠ "notify") :
    Callout.script_args c dev event action =
      Except.ok ["-t", t, "-e", event.toStr, "-a", action.toStr, "-s", c.state.toStr,
        "-u", toString dev.uuid, "-p", p] ∧
    OldCallout.script_args oc "notify" ac =
      some ["-e", "notify", "-a", ac, "-s", oc.state, "-u", toString oc.mdev.uuid,
        "-p", op2] ∧
    OldCallout.script_args oc ev ac =
      some ["-t", ot, "-e", ev, "-a", ac, "-s", oc.state, "-u", toString oc.mdev.uuid,
        "-p", op2] := by
  refine ⟨?_, ?_, ?_⟩
  · unfold Callout.script_args MDev.mdev_type_res MDev.parent_res
    rw [ht, hp]
    rfl
  · simp [OldCallout.script_args, hop]
  · have hne : (ev == "notify") = false := beq_eq_false_iff_ne.mpr hev
    simp [OldCallout.script_args, hne, hot, hop]

/-- Witness for script_args_by_event: concrete sessions of both engines, the
active one invoked for the Notify event. -/
theorem script_args_by_event_witness :
    Callout.script_args { state := State.none, script := Option.none, use_syslog := false }
        { uuid := 3, active := false, autostart := false, parent := some "pw",
          mdev_type := some "tw", attrs := [] } Event.notify Action.define =
      Except.ok ["-t", "tw", "-e", "notify", "-a", "define", "-s", "none", "-u", "3",
        "-p", "pw"] ∧
    OldCallout.script_args
        { mdev :=
            { uuid := 4, active := false, autostart := false, parent := some "po",
              mdev_type := some "tow", attrs := [] },
          state := "success", conf := Option.none, script := Option.none }
        "notify" "define" =
      some ["-e", "notify", "-a", "define", "-s", "success", "-u", "4", "-p", "po"] ∧
    OldCallout.script_args
        { mdev :=
            { uuid := 4, active := false, autostart := false, parent := some "po",
              mdev_type := some "tow", attrs := [] },
          state := "success", conf := Option.none, script := Option.none }
        "pre" "define" =
      some ["-t", "tow", "-e", "pre", "-a", "define", "-s", "success", "-u", "4",
        "-p", "po"] :=
  script_args_by_event
    { state := State.none, script := Option.none, use_syslog := false }
    { uuid := 3, active := false, autostart := false, parent := some "pw",
      mdev_type := some "tw", attrs := [] } Event.notify Action.define "tw" "pw" rfl rfl
    { mdev :=
        { uuid := 4, active := false, autostart := false, parent := some "po",
          mdev_type := some "tow", attrs := [] },
      state := "success", conf := Option.none, script := Option.none }
    "tow" "po" "pre" "define" rfl rfl (by decide)

end Mdevctl
